import Mathlib

/-
  Verification of the Career Guidance Application backend against its
  natural-language specification.

  The development shallowly embeds the relevant route handlers and helper
  functions of the backend:
  - the POST /applications handler of src/routes/students.js (application
    submission with eligibility checks, course validation and record creation);
  - the job-posting fan-out, qualification stub, match-score computation and
    applicant sorting of the company routes file.

  Stateful handler code becomes explicit state passing over a Db structure;
  the document store query results become list filters over that state.
-/

/-- Application status values used by the backend. -/
inductive AppStatus where
  | pending
  | admitted
  | rejected
  | withdrawn
deriving DecidableEq, Repr

/-- An application document as created by the POST /applications handler. -/
structure Application where
  id : String
  studentId : String
  courseId : String
  institutionId : String
  personalStatement : String
  documents : List String
  status : AppStatus
  appliedAt : Nat
deriving DecidableEq, Repr

/-- A course document; the handler reads only institutionId from it. -/
structure Course where
  id : String
  institutionId : String
deriving DecidableEq, Repr

/-- The slice of the document store that the submission handler touches. -/
structure Db where
  applications : List Application
  courses : List Course
deriving Repr

/-- The request body of POST /applications; absent fields are none. -/
structure SubmitRequest where
  courseId : Option String
  institutionId : Option String
  personalStatement : Option String
  documents : Option (List String)
deriving Repr

/-- The possible responses of the submission handler. -/
inductive SubmitResult where
  | missingFields
  | limitReached
  | alreadyAdmitted
  | courseNotFound
  | courseMismatch
  | created (app : Application)
deriving DecidableEq, Repr

/-- The query of lines 27-30 of src/routes/students.js: all applications of
the student at the institution, with no filter on status. -/
def institutionAppCount (db : Db) (studentId institutionId : String) : Nat :=
  (db.applications.filter fun a =>
    a.studentId == studentId && a.institutionId == institutionId).length

/-- The count the specification describes: only non-withdrawn applications
of the student at the institution. -/
def nonWithdrawnCount (db : Db) (studentId institutionId : String) : Nat :=
  (db.applications.filter fun a =>
    a.studentId == studentId && a.institutionId == institutionId &&
      a.status != AppStatus.withdrawn).length

/-- The query of lines 40-43 of src/routes/students.js: does the student have
any application, at any institution, with status admitted. -/
def hasAdmitted (db : Db) (studentId : String) : Bool :=
  db.applications.any fun a =>
    a.studentId == studentId && a.status == AppStatus.admitted

/-- The POST /applications handler of src/routes/students.js, lines 8-98:
field validation, then the two-applications-per-institution check (all
statuses), then the admitted-elsewhere check, then course validation, then
record creation. freshId stands for the generated document id and now for
the creation timestamp. -/
def submitApplication (db : Db) (studentId : String) (req : SubmitRequest)
    (freshId : String) (now : Nat) : SubmitResult :=
  match req.courseId, req.institutionId with
  | some courseId, some institutionId =>
    if courseId = "" ∨ institutionId = "" then
      SubmitResult.missingFields
    else if 2 ≤ institutionAppCount db studentId institutionId then
      SubmitResult.limitReached
    else if hasAdmitted db studentId then
      SubmitResult.alreadyAdmitted
    else
      match db.courses.find? (fun c => c.id == courseId) with
      | none => SubmitResult.courseNotFound
      | some course =>
        if course.institutionId ≠ institutionId then
          SubmitResult.courseMismatch
        else
          SubmitResult.created
            { id := freshId
              studentId := studentId
              courseId := courseId
              institutionId := institutionId
              personalStatement := req.personalStatement.getD ""
              documents := req.documents.getD []
              status := AppStatus.pending
              appliedAt := now }
  | _, _ => SubmitResult.missingFields

/-- Commit phase of a submission: append the created record, if any. -/
def applySubmit (db : Db) (r : SubmitResult) : Db :=
  match r with
  | SubmitResult.created app => { db with applications := db.applications ++ [app] }
  | _ => db

/-- Two concurrent submissions by the same student where both handlers read
the application set before either write commits: both decisions are computed
against the same initial state, then both writes are applied. -/
def racedSubmit (db : Db) (studentId : String) (req1 req2 : SubmitRequest)
    (f1 f2 : String) (n1 n2 : Nat) : Db :=
  let d1 := submitApplication db studentId req1 f1 n1
  let d2 := submitApplication db studentId req2 f2 n2
  applySubmit (applySubmit db d1) d2

/-- Structured job requirements as the data model describes them. -/
structure JobRequirements where
  minGPA : Option ℚ
  requiredCertificates : List String
  minYearsExperience : Option Nat
deriving DecidableEq, Repr

/-- A job document; the matching code receives the whole document. -/
structure Job where
  title : String
  requirements : JobRequirements
deriving DecidableEq, Repr

/-- A transcript record carrying the fields the matching code reads. -/
structure Transcript where
  gpa : Option ℚ
  certificates : List String
deriving DecidableEq, Repr

/-- The checkJobQualifications helper of the company routes file: it ignores
both arguments and returns true. -/
def checkJobQualifications (_transcript : Transcript) (_jobData : Job) : Bool :=
  true

/-- Modelled from the spec: the qualification gate the specification
describes in place of the always-true stub in the source — gpa at least
job.requirements.minGPA when specified, all required certificates present
in the certificate set, and years of experience at least
minYearsExperience when specified. -/
def qualifiedPerSpec (t : Transcript) (years : Nat) (job : Job) : Bool :=
  (match job.requirements.minGPA with
   | some m =>
     match t.gpa with
     | some g => decide (m ≤ g)
     | none => false
   | none => true) &&
  job.requirements.requiredCertificates.all (fun c => t.certificates.contains c) &&
  (match job.requirements.minYearsExperience with
   | some m => decide (m ≤ years)
   | none => true)

/-- The profile object the matching code reads the certificate and work
experience arrays from; absent arrays are none. -/
structure StudentProfile where
  certificates : Option (List String)
  workExperience : Option (List String)
deriving DecidableEq, Repr

/-- The applicant object passed to calculateMatchScore and pushed into the
applicants list by the GET /jobs/:jobId/applicants handler. -/
structure ApplicantRecord where
  id : String
  appliedAt : Nat
  transcript : Option Transcript
  student : Option StudentProfile
deriving DecidableEq, Repr

/-- The calculateMatchScore helper of the company routes file: gpa times 10
when a transcript with a truthy (nonzero) gpa is present, plus 5 per entry
of the certificates array when present, plus 8 per entry of the
workExperience array when present; the jobData argument is never read. -/
def calculateMatchScore (application : ApplicantRecord) (_jobData : Job) : ℚ :=
  let score : ℚ := 0
  let score : ℚ :=
    match application.transcript with
    | some t =>
      match t.gpa with
      | some g => if g = 0 then score else score + g * 10
      | none => score
    | none => score
  let score : ℚ :=
    match application.student with
    | some s =>
      match s.certificates with
      | some certs => score + certs.length * 5
      | none => score
    | none => score
  let score : ℚ :=
    match application.student with
    | some s =>
      match s.workExperience with
      | some w => score + w.length * 8
      | none => score
    | none => score
  score

/-- Academic part of the score: gpa times 10 when truthy, else 0. -/
def academicComponent (a : ApplicantRecord) : ℚ :=
  match a.transcript with
  | some t =>
    match t.gpa with
    | some g => if g = 0 then 0 else g * 10
    | none => 0
  | none => 0

/-- Certificate part of the score: 5 per certificate the student holds,
with no reference to the job requirements. -/
def certificatesComponent (a : ApplicantRecord) : ℚ :=
  match a.student with
  | some s =>
    match s.certificates with
    | some certs => certs.length * 5
    | none => 0
  | none => 0

/-- Experience part of the score: 8 per workExperience entry, uncapped. -/
def experienceComponent (a : ApplicantRecord) : ℚ :=
  match a.student with
  | some s =>
    match s.workExperience with
    | some w => w.length * 8
    | none => 0
  | none => 0

/-- The sort comparator of the applicants route: (a, b) => b.matchScore -
a.matchScore, evaluated with the scores computed for the given job. -/
def matchCmp (job : Job) (a b : ApplicantRecord) : ℚ :=
  calculateMatchScore b job - calculateMatchScore a job

/-- Applicant a strictly precedes applicant b in the ranking exactly when
the comparator returns a negative number. -/
def rankPrecedes (job : Job) (a b : ApplicantRecord) : Prop :=
  matchCmp job a b < 0

/-- A user document row of the fan-out scan: its id and the latest
transcript of the student, none when the student has no transcript. -/
structure StudentUser where
  id : String
  transcript : Option Transcript
deriving DecidableEq, Repr

/-- The loop body of notifyQualifiedStudents: walk the students, skip those
without a transcript, apply the qualification check, and attempt one
notification write per qualifying student. A failing write throws: the
returned pair holds the notification writes that committed before the
throw and whether an error reached the surrounding catch; students after
the failing write are never visited. -/
def fanoutWrites (students : List StudentUser) (jobData : Job)
    (writeFails : String → Bool) : List String × Bool :=
  match students with
  | [] => ([], false)
  | s :: rest =>
    match s.transcript with
    | some t =>
      if checkJobQualifications t jobData then
        if writeFails s.id then ([], true)
        else
          let r := fanoutWrites rest jobData writeFails
          (s.id :: r.1, r.2)
      else fanoutWrites rest jobData writeFails
    | none => fanoutWrites rest jobData writeFails

/-- The notifyQualifiedStudents helper: the whole loop sits inside one try
block whose catch logs the error and returns, so the caller only ever sees
the list of committed notification writes. -/
def notifyQualifiedStudents (students : List StudentUser) (jobData : Job)
    (writeFails : String → Bool) : List String :=
  (fanoutWrites students jobData writeFails).1

/-- The POST /jobs handler after company validation: the job record is
created, the fan-out runs with all its errors swallowed, and the handler
returns success. The Bool is whether the posting succeeded. -/
def postJob (students : List StudentUser) (jobData : Job)
    (writeFails : String → Bool) : Bool × List String :=
  (true, notifyQualifiedStudents students jobData writeFails)

/-! Concrete fixtures used by witnesses and counterexamples. -/

/-- A course at institution i1. -/
def exCourse : Course := { id := "c1", institutionId := "i1" }

/-- A well-formed request for course c1 at institution i1 with no
personal statement and no documents. -/
def exReq : SubmitRequest :=
  { courseId := some "c1", institutionId := some "i1",
    personalStatement := none, documents := none }

/-- A request naming a course id that no course document has. -/
def exReqBadCourse : SubmitRequest :=
  { courseId := some "nosuch", institutionId := some "i1",
    personalStatement := none, documents := none }

/-- An application of student s1 at institution i1 with the given id,
status and timestamp. -/
def mkApp (i : String) (st : AppStatus) (t : Nat) : Application :=
  { id := i, studentId := "s1", courseId := "c1", institutionId := "i1",
    personalStatement := "", documents := [], status := st, appliedAt := t }

/-- Store state: student s1 has two withdrawn applications at i1. -/
def exDbWithdrawn : Db :=
  { applications := [mkApp "a1" AppStatus.withdrawn 1, mkApp "a2" AppStatus.withdrawn 2],
    courses := [exCourse] }

/-- Store state: student s1 has one admitted application (at another
institution) and none at i1. -/
def exDbAdmitted : Db :=
  { applications :=
      [{ id := "a1", studentId := "s1", courseId := "c9", institutionId := "i9",
         personalStatement := "", documents := [], status := AppStatus.admitted,
         appliedAt := 0 }],
    courses := [exCourse] }

/-- Store state: student s1 has one pending application at i1. -/
def exDbOnePending : Db :=
  { applications := [mkApp "a1" AppStatus.pending 0], courses := [exCourse] }

/-- Store state: student s1 has two pending applications at i1. -/
def exDbTwoPending : Db :=
  { applications := [mkApp "a1" AppStatus.pending 0, mkApp "a2" AppStatus.pending 1],
    courses := [exCourse] }

/-- Store state: no applications; only course c1 exists. -/
def exDbFresh : Db := { applications := [], courses := [exCourse] }

/-- Store state: no applications and no courses at all. -/
def exDbNoCourse : Db := { applications := [], courses := [] }

/-- The record a successful submission of exReq by s1 creates. -/
def exCreatedApp : Application :=
  { id := "a1", studentId := "s1", courseId := "c1", institutionId := "i1",
    personalStatement := "", documents := [], status := AppStatus.pending,
    appliedAt := 7 }

/-! Claim theorems. -/

/-- C1 counterexample: the limit check counts withdrawn applications. A
student with two withdrawn applications at the institution, hence zero
non-withdrawn ones, is still denied for the limit reason, which the claim
says never happens for a student below two non-withdrawn applications. -/
theorem C1_counterexample_withdrawn_counted :
    submitApplication exDbWithdrawn "s1" exReq "a3" 10 = SubmitResult.limitReached ∧
    nonWithdrawnCount exDbWithdrawn "s1" "i1" = 0 := by
  constructor <;> decide

/-- C1 (amended): the eligibility check counts all of the student
applications at the target institution regardless of status, withdrawn
included, and denies for the limit reason exactly when that total count is
2 or more (given a well-formed request naming the course and
institution). -/
theorem C1_amended_limit_counts_all_statuses (db : Db) (sid : String)
    (req : SubmitRequest) (fid : String) (now : Nat) (cid iid : String)
    (hc : req.courseId = some cid) (hi : req.institutionId = some iid)
    (hc0 : cid ≠ "") (hi0 : iid ≠ "") :
    submitApplication db sid req fid now = SubmitResult.limitReached ↔
      2 ≤ institutionAppCount db sid iid := by
  have h1 : ¬(cid = "" ∨ iid = "") := by
    rintro (h | h)
    · exact hc0 h
    · exact hi0 h
  constructor
  · intro h
    by_contra hlt
    simp only [submitApplication, hc, hi] at h
    rw [if_neg h1, if_neg hlt] at h
    by_cases ha : hasAdmitted db sid = true
    · rw [if_pos ha] at h
      exact SubmitResult.noConfusion h
    · rw [if_neg ha] at h
      cases hf : List.find? (fun c => c.id == cid) db.courses with
      | none =>
        rw [hf] at h
        exact SubmitResult.noConfusion h
      | some course =>
        rw [hf] at h
        dsimp only at h
        by_cases hm : course.institutionId ≠ iid
        · rw [if_pos hm] at h
          exact SubmitResult.noConfusion h
        · rw [if_neg hm] at h
          exact SubmitResult.noConfusion h
  · intro h
    simp only [submitApplication, hc, hi]
    rw [if_neg h1, if_pos h]

/-- Witness for the amended C1 at a concrete store state. -/
theorem C1_amended_witness :
    submitApplication exDbWithdrawn "s1" exReq "a3" 10 = SubmitResult.limitReached ∧
    2 ≤ institutionAppCount exDbWithdrawn "s1" "i1" :=
  ⟨(C1_amended_limit_counts_all_statuses exDbWithdrawn "s1" exReq "a3" 10 "c1" "i1"
      rfl rfl (by decide) (by decide)).mpr (by decide), by decide⟩

/-- C2: once the student has any application with status admitted, at any
institution, no submission by that student ever creates an application
record, whatever the request. -/
theorem C2_admitted_blocks_creation (db : Db) (sid : String) (req : SubmitRequest)
    (fid : String) (now : Nat) (h : hasAdmitted db sid = true) :
    ∀ app : Application,
      submitApplication db sid req fid now ≠ SubmitResult.created app := by
  intro app hcon
  cases hcq : req.courseId with
  | none => simp [submitApplication, hcq] at hcon
  | some cid =>
    cases hiq : req.institutionId with
    | none => simp [submitApplication, hcq, hiq] at hcon
    | some iid =>
      simp only [submitApplication, hcq, hiq] at hcon
      by_cases h0 : cid = "" ∨ iid = ""
      · rw [if_pos h0] at hcon
        exact SubmitResult.noConfusion hcon
      · rw [if_neg h0] at hcon
        by_cases hlim : 2 ≤ institutionAppCount db sid iid
        · rw [if_pos hlim] at hcon
          exact SubmitResult.noConfusion hcon
        · rw [if_neg hlim, if_pos h] at hcon
          exact SubmitResult.noConfusion hcon

/-- Witness for C2: an admitted student, a well-formed request, and the
record that the request would otherwise create. -/
theorem C2_admitted_witness :
    hasAdmitted exDbAdmitted "s1" = true ∧
    submitApplication exDbAdmitted "s1" exReq "a2" 5 ≠
      SubmitResult.created exCreatedApp :=
  ⟨by decide,
   C2_admitted_blocks_creation exDbAdmitted "s1" exReq "a2" 5 (by decide) exCreatedApp⟩

/-- C6: the failing schedule. Student s1 holds one pending application at
i1; two submissions both read the application set before either write
commits; both pass the limit check and both records are written, leaving
three non-withdrawn applications at one institution. -/
theorem C6_race_exceeds_limit :
    nonWithdrawnCount (racedSubmit exDbOnePending "s1" exReq exReq "a2" "a3" 1 2)
      "s1" "i1" = 3 := by
  decide

/-- C7 counterexample: with the student at the two-application limit and a
request naming a nonexistent course, the handler answers with the limit
error, so the eligibility rules were evaluated even though course
validation fails — the claim says such requests fail on course validation
before eligibility is reached. -/
theorem C7_counterexample_eligibility_runs_first :
    exDbTwoPending.courses.find? (fun c => c.id == "nosuch") = none ∧
    submitApplication exDbTwoPending "s1" exReqBadCourse "a3" 5 =
      SubmitResult.limitReached := by
  constructor <;> decide

/-- C7 (amended): course validation runs after the eligibility rules, so a
course-validation failure (course not found, or institution mismatch) is
only ever reported when both eligibility checks pass: the student is below
the institution application count limit and has no admitted application. -/
theorem C7_amended_course_validation_after_eligibility (db : Db) (sid : String)
    (req : SubmitRequest) (fid : String) (now : Nat) (iid : String)
    (hi : req.institutionId = some iid)
    (h : submitApplication db sid req fid now = SubmitResult.courseNotFound ∨
         submitApplication db sid req fid now = SubmitResult.courseMismatch) :
    hasAdmitted db sid = false ∧ institutionAppCount db sid iid < 2 := by
  cases hcq : req.courseId with
  | none =>
    rcases h with h | h <;> simp [submitApplication, hcq] at h
  | some cid =>
    have key : ¬ 2 ≤ institutionAppCount db sid iid ∧ hasAdmitted db sid = false := by
      rcases h with h | h <;>
      · simp only [submitApplication, hcq, hi] at h
        by_cases h0 : cid = "" ∨ iid = ""
        · rw [if_pos h0] at h
          exact SubmitResult.noConfusion h
        · rw [if_neg h0] at h
          by_cases hlim : 2 ≤ institutionAppCount db sid iid
          · rw [if_pos hlim] at h
            exact SubmitResult.noConfusion h
          · rw [if_neg hlim] at h
            by_cases hadm : hasAdmitted db sid = true
            · rw [if_pos hadm] at h
              exact SubmitResult.noConfusion h
            · exact ⟨hlim, Bool.eq_false_iff.mpr hadm⟩
    exact ⟨key.2, Nat.lt_of_not_le key.1⟩

/-- Witness for the amended C7 at a concrete store state. -/
theorem C7_amended_witness :
    (submitApplication exDbNoCourse "s1" exReqBadCourse "a3" 5 =
       SubmitResult.courseNotFound ∨
     submitApplication exDbNoCourse "s1" exReqBadCourse "a3" 5 =
       SubmitResult.courseMismatch) ∧
    (hasAdmitted exDbNoCourse "s1" = false ∧
     institutionAppCount exDbNoCourse "s1" "i1" < 2) :=
  ⟨Or.inl (by decide),
   C7_amended_course_validation_after_eligibility exDbNoCourse "s1" exReqBadCourse
     "a3" 5 "i1" rfl (Or.inl (by decide))⟩

/-- C10: every record a successful submission creates has status pending,
carries the authenticated student id, the requested course and
institution, the empty string for an absent personal statement and the
empty list for absent documents, with the generated id and timestamp. -/
theorem C10_created_record_shape (db : Db) (sid : String) (req : SubmitRequest)
    (fid : String) (now : Nat) (app : Application)
    (h : submitApplication db sid req fid now = SubmitResult.created app) :
    app.status = AppStatus.pending ∧
    app.studentId = sid ∧
    app.id = fid ∧
    app.appliedAt = now ∧
    req.courseId = some app.courseId ∧
    req.institutionId = some app.institutionId ∧
    app.personalStatement = req.personalStatement.getD "" ∧
    app.documents = req.documents.getD [] := by
  cases hcq : req.courseId with
  | none => simp [submitApplication, hcq] at h
  | some cid =>
    cases hiq : req.institutionId with
    | none => simp [submitApplication, hcq, hiq] at h
    | some iid =>
      simp only [submitApplication, hcq, hiq] at h
      by_cases h0 : cid = "" ∨ iid = ""
      · rw [if_pos h0] at h
        exact SubmitResult.noConfusion h
      · rw [if_neg h0] at h
        by_cases hlim : 2 ≤ institutionAppCount db sid iid
        · rw [if_pos hlim] at h
          exact SubmitResult.noConfusion h
        · rw [if_neg hlim] at h
          by_cases hadm : hasAdmitted db sid = true
          · rw [if_pos hadm] at h
            exact SubmitResult.noConfusion h
          · rw [if_neg hadm] at h
            cases hf : List.find? (fun c => c.id == cid) db.courses with
            | none =>
              rw [hf] at h
              exact SubmitResult.noConfusion h
            | some course =>
              rw [hf] at h
              dsimp only at h
              by_cases hm : course.institutionId ≠ iid
              · rw [if_pos hm] at h
                exact SubmitResult.noConfusion h
              · rw [if_neg hm] at h
                injection h with happ
                subst happ
                exact ⟨rfl, rfl, rfl, rfl, rfl, rfl, rfl, rfl⟩

/-- Witness for C10 at a concrete successful submission. -/
theorem C10_created_record_witness :
    submitApplication exDbFresh "s1" exReq "a1" 7 = SubmitResult.created exCreatedApp ∧
    (exCreatedApp.status = AppStatus.pending ∧
     exCreatedApp.studentId = "s1" ∧
     exCreatedApp.id = "a1" ∧
     exCreatedApp.appliedAt = 7 ∧
     exReq.courseId = some exCreatedApp.courseId ∧
     exReq.institutionId = some exCreatedApp.institutionId ∧
     exCreatedApp.personalStatement = exReq.personalStatement.getD "" ∧
     exCreatedApp.documents = exReq.documents.getD []) :=
  ⟨by decide,
   C10_created_record_shape exDbFresh "s1" exReq "a1" 7 exCreatedApp (by decide)⟩

/-- A transcript with gpa 2 and no certificates. -/
def lowGpaTranscript : Transcript := { gpa := some 2, certificates := [] }

/-- A transcript with gpa 3 holding the AWS certificate. -/
def okTranscript : Transcript := { gpa := some 3, certificates := ["AWS"] }

/-- A job requiring gpa at least 3 and the AWS certificate. -/
def awsJob : Job :=
  { title := "Dev",
    requirements :=
      { minGPA := some 3, requiredCertificates := ["AWS"],
        minYearsExperience := none } }

/-- A second job with different requirements, used to vary the job input. -/
def openJob : Job :=
  { title := "Intern",
    requirements :=
      { minGPA := none, requiredCertificates := [], minYearsExperience := none } }

/-- C3: the qualification helper in the source returns qualified for every
input; on a transcript below the required gpa and missing the required
certificate it still answers qualified, where the specified gate answers
unqualified. -/
theorem C3_stub_qualifies_everyone :
    checkJobQualifications lowGpaTranscript awsJob = true ∧
    qualifiedPerSpec lowGpaTranscript 0 awsJob = false := by
  constructor <;> decide

/-- An applicant whose only profile data is n workExperience entries. -/
def expOnlyApplicant (n : Nat) : ApplicantRecord :=
  { id := "e1", appliedAt := 0, transcript := none,
    student := some { certificates := none, workExperience := some (List.replicate n "job") } }

/-- C4 counterexample: the experience contribution is uncapped — no bound B
dominates the scores of applicants that differ only in how many
workExperience entries they carry, so the score is not the capped sum the
claim describes. -/
theorem C4_counterexample_unbounded_experience :
    ¬ ∃ B : ℚ, ∀ n : Nat, calculateMatchScore (expOnlyApplicant n) awsJob ≤ B := by
  rintro ⟨B, hB⟩
  obtain ⟨n, hn⟩ := exists_nat_gt B
  have hs : calculateMatchScore (expOnlyApplicant n) awsJob = (n : ℚ) * 8 := by
    simp [calculateMatchScore, expOnlyApplicant]
  have h0 : (0 : ℚ) ≤ (n : ℚ) := Nat.cast_nonneg n
  have h8 : (n : ℚ) ≤ (n : ℚ) * 8 := by nlinarith [h0]
  have hb := hB n
  rw [hs] at hb
  linarith

/-- C4 (amended): the score decomposes as academic plus certificates plus
experience, where academic is gpa times 10 when a transcript with nonzero
gpa is present, certificates is 5 per certificate the student holds with
no reference to the job requirements and no cap, and experience is 8 per
workExperience entry rather than per year, uncapped. -/
theorem C4_amended_score_decomposition (a : ApplicantRecord) (j : Job) :
    calculateMatchScore a j =
      academicComponent a + certificatesComponent a + experienceComponent a := by
  rcases a with ⟨aid, aat, tr, st⟩
  simp only [calculateMatchScore, academicComponent, certificatesComponent,
    experienceComponent]
  rcases tr with _ | ⟨g, cs⟩
  · rcases st with _ | ⟨certs, work⟩
    · norm_num
    · rcases certs with _ | certs <;> rcases work with _ | work <;> dsimp only <;> ring
  · rcases g with _ | g
    · rcases st with _ | ⟨certs, work⟩
      · norm_num
      · rcases certs with _ | certs <;> rcases work with _ | work <;> dsimp only <;> ring
    · by_cases hg : g = 0 <;>
        simp only [hg, if_pos, if_neg, ite_true, ite_false, reduceIte] <;>
        (rcases st with _ | ⟨certs, work⟩
         · norm_num
         · rcases certs with _ | certs <;> rcases work with _ | work <;> simp [hg])

/-- C9: the match score never depends on the job — any two jobs give the
same score for the same applicant record, and the sort comparator of the
applicants route is likewise identical for any two jobs. -/
theorem C9_score_ignores_job (a : ApplicantRecord) (j1 j2 : Job) :
    calculateMatchScore a j1 = calculateMatchScore a j2 ∧
    (∀ b : ApplicantRecord, matchCmp j1 a b = matchCmp j2 a b) :=
  ⟨rfl, fun _ => rfl⟩

/-- An applicant with no profile data who applied at time 1. -/
def earlyApplicant : ApplicantRecord :=
  { id := "p1", appliedAt := 1, transcript := none, student := none }

/-- An applicant with no profile data who applied at time 2. -/
def lateApplicant : ApplicantRecord :=
  { id := "p2", appliedAt := 2, transcript := none, student := none }

/-- C5 counterexample: two distinct applicants with equal scores are not
ordered either way by the ranking comparator — neither precedes the other,
although the earlier appliedAt applicant should precede under the claim,
so the ranking is not the claimed total order. -/
theorem C5_counterexample_ties_unordered :
    earlyApplicant ≠ lateApplicant ∧
    earlyApplicant.appliedAt < lateApplicant.appliedAt ∧
    ¬ rankPrecedes awsJob earlyApplicant lateApplicant ∧
    ¬ rankPrecedes awsJob lateApplicant earlyApplicant := by
  refine ⟨by decide, by decide, ?_, ?_⟩ <;>
    simp [rankPrecedes, matchCmp, calculateMatchScore, earlyApplicant, lateApplicant]

/-- C5 (amended): the ranking comparator orders applicants by match score
descending and by nothing else — a precedes b exactly when the score of a
exceeds the score of b; qualified status, application timestamp and id
play no role, and equal-score applicants are not strictly ordered. -/
theorem C5_amended_order_by_score_only (j : Job) (a b : ApplicantRecord) :
    rankPrecedes j a b ↔ calculateMatchScore b j < calculateMatchScore a j := by
  unfold rankPrecedes matchCmp
  constructor <;> intro h <;> linarith

/-- Three students s1, s2, s3, each holding a transcript. -/
def exStudents3 : List StudentUser :=
  [ { id := "s1", transcript := some okTranscript },
    { id := "s2", transcript := some okTranscript },
    { id := "s3", transcript := some okTranscript } ]

/-- A notification-write fault that fails exactly for student s2. -/
def failOnS2 : String → Bool := fun i => i == "s2"

/-- A fault model under which no notification write fails. -/
def noWriteFault : String → Bool := fun _ => false

/-- C8 counterexample: with a write failure on the second of three
qualifying students, the posting still succeeds but only the first student
is notified; the third qualifying student, whose own write would not fail,
is skipped, although the claim says the remaining qualifying students are
still processed. -/
theorem C8_counterexample_failure_aborts_fanout :
    (postJob exStudents3 awsJob failOnS2).1 = true ∧
    notifyQualifiedStudents exStudents3 awsJob failOnS2 = ["s1"] ∧
    failOnS2 "s3" = false ∧
    "s3" ∉ notifyQualifiedStudents exStudents3 awsJob failOnS2 := by
  refine ⟨rfl, by decide, by decide, by decide⟩

/-- C8 (amended): a notification-write failure never fails the posting —
the handler still reports success — but the failure aborts the whole
fan-out loop rather than being skipped individually; only when no write
fails is every transcript-holding student notified. -/
theorem C8_amended_posting_survives_fanout_failure (students : List StudentUser)
    (j : Job) (wf : String → Bool) :
    (postJob students j wf).1 = true ∧
    ((∀ s ∈ students, wf s.id = false) →
      notifyQualifiedStudents students j wf =
        (students.filter (fun s => s.transcript.isSome)).map (fun s => s.id)) := by
  refine ⟨rfl, ?_⟩
  induction students with
  | nil => intro _; rfl
  | cons s rest ih =>
    intro h
    have hs : wf s.id = false := h s (List.mem_cons_self s rest)
    have ht : ∀ x ∈ rest, wf x.id = false := fun x hx => h x (List.mem_cons_of_mem s hx)
    have ih2 := ih ht
    simp only [notifyQualifiedStudents] at ih2 ⊢
    cases htr : s.transcript with
    | none =>
      simp [fanoutWrites, htr, checkJobQualifications, List.filter_cons, ih2]
    | some t =>
      simp [fanoutWrites, htr, checkJobQualifications, hs, List.filter_cons, ih2]

/-- Witness for the amended C8: three students, no write failure — posting
succeeds and all three transcript holders are notified. -/
theorem C8_amended_witness :
    (postJob exStudents3 awsJob noWriteFault).1 = true ∧
    notifyQualifiedStudents exStudents3 awsJob noWriteFault = ["s1", "s2", "s3"] := by
  have h := C8_amended_posting_survives_fanout_failure exStudents3 awsJob noWriteFault
  exact ⟨h.1, (h.2 (by decide)).trans (by decide)⟩
